import Mathlib

/-!
Verification development for the ectocontrol-modbus-controller integration.

The definitions below are a shallow embedding of the Python sources in
`custom_components/ectocontrol_modbus_controller/`:

* `boiler_gateway.py`  — register decoding getters of `BoilerGateway`
* `contact_gateway.py` — channel decoding of `ContactSensorGateway`
* `device_router.py`   — `create_device_gateway`
* `coordinator.py`     — `BoilerDataUpdateCoordinator._async_update_data`
* `contact_coordinator.py` — `ContactSensorDataUpdateCoordinator._async_update_data`
* `modbus_protocol_manager.py` — reference-counted protocol pool
* `modbus_protocol.py` — `ModbusProtocol.write_register`

Raw 16-bit register words are modelled as `Nat` (modbus-tk hands the gateway
unsigned words); scaled decoded values are modelled as `ℚ` (Python floats of
the form `x / 10.0`, `x / 256.0`; all values considered here are exactly
representable, so ℚ is a faithful carrier for the equalities in question).
A register snapshot (the `cache` dict) is an association list queried like
`dict.get`.
-/

/-- A register snapshot: the `cache` dict mapping register address to raw
16-bit word, as filled in by a coordinator poll. -/
abbrev Snapshot := List (Nat × Nat)

/-- `dict.get(addr)`: first binding for the address, if any. -/
def Snapshot.get (s : Snapshot) (a : Nat) : Option Nat :=
  (s.find? (fun p => p.1 == a)).map (fun p => p.2)

/-- Python `raw - 0x10000 if raw >= 0x8000 else raw`: twos-complement
decode of a 16-bit word. -/
def toI16 (raw : Nat) : Int :=
  if raw ≥ 0x8000 then (raw : Int) - 0x10000 else (raw : Int)

/-- Python `b - 0x100 if b >= 0x80 else b`: twos-complement decode of a
byte. -/
def toI8 (b : Nat) : Int :=
  if b ≥ 0x80 then (b : Int) - 0x100 else (b : Int)

/- Register addresses from `const.py`. -/

def REGISTER_CH_TEMP : Nat := 0x0018
def REGISTER_DHW_TEMP : Nat := 0x0019
def REGISTER_PRESSURE : Nat := 0x001A
def REGISTER_FLOW : Nat := 0x001B
def REGISTER_MODULATION : Nat := 0x001C
def REGISTER_OUTDOOR_TEMP : Nat := 0x0020
def REGISTER_CH_SETPOINT_ACTIVE : Nat := 0x0026
def REGISTER_CH_SETPOINT : Nat := 0x0031
def REGISTER_DHW_SETPOINT : Nat := 0x0037
def REGISTER_CIRCUIT_ENABLE : Nat := 0x0039

/- Register status codes from `const.py`. -/

def REG_STATUS_VALID : Int := 0
def REG_STATUS_NOT_INIT : Int := 1
def REG_STATUS_NOT_SUPPORTED : Int := -1
def REG_STATUS_RW_ERROR : Int := -2

/-- `BoilerGateway.get_register_status`: status of register `addr` lives at
`addr + 0x30`; only defined for the monitored range 0x0010–0x003F; decoded
as a signed i16. -/
def get_register_status (s : Snapshot) (addr : Nat) : Option Int :=
  if addr < 0x0010 ∨ 0x003F < addr then none
  else
    match s.get (addr + 0x30) with
    | none => none
    | some raw => some (toI16 raw)

/-- The status test repeated at the top of the status-gated getters: the
getter bails out iff the status register is present and decodes to
NOT_SUPPORTED (-1), READ_WRITE_ERROR (-2) or NOT_INITIALIZED (1). -/
def status_blocks (st : Option Int) : Bool :=
  match st with
  | none => false
  | some v => v == -1 || v == -2 || v == 1

/-- `BoilerGateway.get_ch_temperature`: status-gated, 0x7FFF sentinel,
signed i16 scaled by 10. -/
def get_ch_temperature (s : Snapshot) : Option ℚ :=
  if status_blocks (get_register_status s REGISTER_CH_TEMP) then none
  else
    match s.get REGISTER_CH_TEMP with
    | none => none
    | some raw => if raw == 0x7FFF then none else some ((toI16 raw : ℚ) / 10)

/-- `BoilerGateway.get_dhw_temperature`: status-gated, 0x7FFF sentinel,
`raw / 10.0` with no sign conversion (unlike the CH-temperature getter). -/
def get_dhw_temperature (s : Snapshot) : Option ℚ :=
  if status_blocks (get_register_status s REGISTER_DHW_TEMP) then none
  else
    match s.get REGISTER_DHW_TEMP with
    | none => none
    | some raw => if raw == 0x7FFF then none else some ((raw : ℚ) / 10)

/-- `BoilerGateway.get_pressure`: status-gated, low byte, 0xFF sentinel,
scaled by 10. -/
def get_pressure (s : Snapshot) : Option ℚ :=
  if status_blocks (get_register_status s REGISTER_PRESSURE) then none
  else
    match s.get REGISTER_PRESSURE with
    | none => none
    | some raw =>
      let lsb := raw &&& 0xFF
      if lsb == 0xFF then none else some ((lsb : ℚ) / 10)

/-- `BoilerGateway.get_flow_rate`: status-gated, low byte, 0xFF sentinel,
scaled by 10. -/
def get_flow_rate (s : Snapshot) : Option ℚ :=
  if status_blocks (get_register_status s REGISTER_FLOW) then none
  else
    match s.get REGISTER_FLOW with
    | none => none
    | some raw =>
      let lsb := raw &&& 0xFF
      if lsb == 0xFF then none else some ((lsb : ℚ) / 10)

/-- `BoilerGateway.get_modulation_level`: status-gated, low byte, 0xFF
sentinel, unscaled. -/
def get_modulation_level (s : Snapshot) : Option Nat :=
  if status_blocks (get_register_status s REGISTER_MODULATION) then none
  else
    match s.get REGISTER_MODULATION with
    | none => none
    | some raw =>
      let lsb := raw &&& 0xFF
      if lsb == 0xFF then none else some lsb

/-- `BoilerGateway.get_outdoor_temperature`: status-gated, high byte, 0x7F
sentinel, signed i8. -/
def get_outdoor_temperature (s : Snapshot) : Option Int :=
  if status_blocks (get_register_status s REGISTER_OUTDOOR_TEMP) then none
  else
    match s.get REGISTER_OUTDOOR_TEMP with
    | none => none
    | some raw =>
      let msb := (raw >>> 8) &&& 0xFF
      if msb == 0x7F then none else some (toI8 msb)

/-- `BoilerGateway.get_ch_setpoint_active`: status-gated, 0x7FFF sentinel,
signed i16 scaled by 256. -/
def get_ch_setpoint_active (s : Snapshot) : Option ℚ :=
  if status_blocks (get_register_status s REGISTER_CH_SETPOINT_ACTIVE) then none
  else
    match s.get REGISTER_CH_SETPOINT_ACTIVE with
    | none => none
    | some raw => if raw == 0x7FFF then none else some ((toI16 raw : ℚ) / 256)

/-- `BoilerGateway.get_dhw_setpoint`: high byte, 0xFF sentinel, no status
check at all. -/
def get_dhw_setpoint (s : Snapshot) : Option ℚ :=
  match s.get REGISTER_DHW_SETPOINT with
  | none => none
  | some raw =>
    let msb := (raw >>> 8) &&& 0xFF
    if msb == 0xFF then none else some ((msb : ℚ))

/-- `BoilerGateway.get_ch_setpoint`: status-gated and sentinel-checked, but
falls back to the sticky `_ch_setpoint_cache` instead of unavailable; a
successful decode updates the cache. Result: (returned value, cache after
the call). -/
def get_ch_setpoint (s : Snapshot) (cache : Option ℚ) : Option ℚ × Option ℚ :=
  if status_blocks (get_register_status s REGISTER_CH_SETPOINT) then (cache, cache)
  else
    match s.get REGISTER_CH_SETPOINT with
    | none => (cache, cache)
    | some raw =>
      if raw == 0x7FFF then (cache, cache)
      else
        let v : ℚ := (toI16 raw : ℚ) / 10
        (some v, some v)

/-- `BoilerGateway.set_ch_setpoint`: updates `_ch_setpoint_cache` to
`value_raw / 10.0` before issuing the write; the cache update does not
depend on the write outcome. Result: (cache after the call, reported write
result). -/
def set_ch_setpoint (value_raw : Nat) (writeOk : Bool) : Option ℚ × Bool :=
  (some ((value_raw : ℚ) / 10), writeOk)

example : get_ch_temperature [(0x0018, 291)] = some (291 / 10) := by
  simp +decide [get_ch_temperature, Snapshot.get, get_register_status,
    status_blocks, toI16, REGISTER_CH_TEMP, List.find?]
example : get_ch_temperature [(0x0018, 0x8000)] = some (-(16384 / 5)) := by
  simp +decide [get_ch_temperature, Snapshot.get, get_register_status,
    status_blocks, toI16, REGISTER_CH_TEMP, List.find?]
  norm_num
example : get_dhw_temperature [(0x0019, 0x8000)] = some (16384 / 5) := by
  simp +decide [get_dhw_temperature, Snapshot.get, get_register_status,
    status_blocks, REGISTER_DHW_TEMP, List.find?]
  norm_num
example : get_outdoor_temperature [(0x0020, 0x8500)] = some (-123) := by decide
example : get_outdoor_temperature [(0x0020, 0xFF00)] = some (-1) := by decide
example : get_outdoor_temperature [(0x0020, 0x7F00)] = none := by decide
example : get_dhw_setpoint [(0x0037, 0x2800), (0x0067, 0xFFFF)] = some 40 := by
  simp +decide [get_dhw_setpoint, Snapshot.get, REGISTER_DHW_SETPOINT, List.find?]
example : get_register_status [(0x0037, 0x2800), (0x0067, 0xFFFF)] 0x0037 = some (-1) := by decide

/-! ### Device router (`device_router.py`, `create_device_gateway`) -/

/-- What the router call can produce: which gateway class would be handed
back on the two supported branches. -/
inductive GatewayKind where
  | contactSplitter
  | boiler
deriving DecidableEq

/-- How `create_device_gateway` can fail: `valueError` stands for the
`ValueError` raises in the function body, `typeError` for a `TypeError`
escaping from a constructor call. -/
inductive RouterError where
  | valueError
  | typeError
deriving DecidableEq

/-- `ContactSensorGateway.__init__(self, protocol, slave_id)` declares no
`debug_modbus` parameter (contact_gateway.py line 32). -/
def contactInitAcceptsDebugModbus : Bool := false

/-- `BoilerGateway.__init__(self, protocol, slave_id)` declares no
`debug_modbus` parameter (boiler_gateway.py line 60). -/
def boilerInitAcceptsDebugModbus : Bool := false

/-- `create_device_gateway` passes `debug_modbus=debug_modbus` to both
constructors (device_router.py lines 68 and 75); in Python a keyword
argument that the callee does not declare raises `TypeError`. -/
def routerPassesDebugModbus : Bool := true

/-- `create_device_gateway`: reads device-info registers (`readInfo` is the
result of `protocol.read_registers(slave_id, 0x0000, 4)`), routes on the
device-type byte (MSB of register 0x0003), constructs the gateway, then
calls `gateway.read_device_info()` (its success is the `infoOk`
parameter; an exception there is caught and re-raised as `ValueError`). -/
def create_device_gateway (readInfo : Option (List Nat)) (infoOk : Bool) :
    Except RouterError GatewayKind :=
  match readInfo with
  | none => .error .valueError
  | some regs =>
    if regs.length < 4 then .error .valueError
    else
      let device_type := (regs.getD 3 0 >>> 8) &&& 0xFF
      if device_type == 0x59 then
        if routerPassesDebugModbus && !contactInitAcceptsDebugModbus then
          .error .typeError
        else if infoOk then .ok .contactSplitter else .error .valueError
      else if device_type == 0x14 || device_type == 0x15 || device_type == 0x16 then
        if routerPassesDebugModbus && !boilerInitAcceptsDebugModbus then
          .error .typeError
        else if infoOk then .ok .boiler else .error .valueError
      else .error .valueError

/-! ### Boiler coordinator (`coordinator.py`, `_async_update_data`) -/

/-- `for i, v in enumerate(regs): data[base + i] = v` — number a register
list starting at a base address. -/
def numberFrom (start : Nat) : List Nat → List (Nat × Nat)
  | [] => []
  | v :: rest => (start, v) :: numberFrom (start + 1) rest

/-- The snapshot built by one successful boiler poll: registers
0x0010-0x0026 plus, when the circuit-enable read returned a non-empty
list (Python truthiness of `circuit_enable`), register 0x0039. -/
def mergeData (regs : List Nat) (circuit : Option (List Nat)) : Snapshot :=
  numberFrom 0x0010 regs ++
    (match circuit with
     | some (c :: _) => [(0x0039, c)]
     | _ => [])

/-- Outcome of one poll attempt in `_async_update_data`: the primary read
returned `None` (`noData`), a timeout or unexpected exception was raised
(`transient`), or the primary read returned `regs` and the circuit-enable
read returned `circuit`. -/
inductive ReadOutcome where
  | noData
  | transient
  | ok (regs : List Nat) (circuit : Option (List Nat))

/-- Result of `_async_update_data`: the returned snapshot (also assigned to
`gateway.cache`) with the number of attempts performed and the backoff
delays slept between attempts, or an `UpdateFailed` raise. -/
inductive PollResult where
  | success (data : Snapshot) (attempts : Nat) (delays : List ℚ)
  | failedNoData (attempts : Nat) (delays : List ℚ)
  | failedRetriesExhausted (attempts : Nat) (delays : List ℚ)
deriving DecidableEq

/-- The retry loop of `_async_update_data`: attempt indices run from
`attempt` while `attempt ≤ retryCount`; a `noData` result raises
`UpdateFailed` immediately (re-raised, not retried); a transient error
sleeps `0.5 * (attempt + 1)` and retries while attempts remain. -/
def pollAux (outcomes : Nat → ReadOutcome) (retryCount : Nat) (attempt : Nat)
    (delays : List ℚ) : PollResult :=
  match outcomes attempt with
  | .noData => .failedNoData (attempt + 1) delays
  | .ok regs circuit => .success (mergeData regs circuit) (attempt + 1) delays
  | .transient =>
    if h : attempt < retryCount then
      pollAux outcomes retryCount (attempt + 1)
        (delays ++ [(1 / 2 : ℚ) * ((attempt : ℚ) + 1)])
    else
      .failedRetriesExhausted (attempt + 1) delays
termination_by retryCount - attempt
decreasing_by omega

/-- One full `_async_update_data` call with the given per-attempt
outcomes. -/
def boilerPollRun (outcomes : Nat → ReadOutcome) (retryCount : Nat) : PollResult :=
  pollAux outcomes retryCount 0 []

/-- coordinator.py line 101, `self.gateway.cache = data`: the gateway
snapshot after a successful boiler poll is the freshly merged data,
whatever the previous cache held. -/
def boiler_apply_success (gwCache : Snapshot) (data : Snapshot) : Snapshot :=
  data

/-! ### Contact coordinator (`contact_coordinator.py`, `_async_update_data`) -/

/-- `ContactSensorDataUpdateCoordinator._async_update_data`: reads one or
two input registers depending on `channel_count or 10` (Python `or`: both
`None` and `0` fall back to 10), raises `UpdateFailed` on a missing or
short read, and returns the data dict. The gateway cache is NOT assigned
anywhere in the function; the pair returned here is (coordinator data,
gateway cache after the call). -/
def contact_update (channel_count : Option Nat) (readResult : Option (List Nat))
    (gwCache : Snapshot) : Except Unit (Snapshot × Snapshot) :=
  let cc := match channel_count with
    | none => 10
    | some 0 => 10
    | some n => n
  if cc ≤ 8 then
    match readResult with
    | none => .error ()
    | some [] => .error ()
    | some (r0 :: _) => .ok ([(0x0010, r0)], gwCache)
  else
    match readResult with
    | some (r0 :: r1 :: _) => .ok ([(0x0010, r0), (0x0011, r1)], gwCache)
    | _ => .error ()

/-! ### Protocol manager (`modbus_protocol_manager.py`) -/

/-- Per-port state of `ModbusProtocolManager`, instrumented for the
specification: `entry` is `_protocols[port]` as (client connected?,
reference count); `connects` / `disconnects` count the physical
`protocol.connect()` successes and `protocol.disconnect()` calls made by
the manager; `holders` is ghost bookkeeping for the number of callers
currently holding a successfully acquired client (successful acquires
minus releases). -/
structure PoolState where
  entry : Option (Bool × Nat)
  connects : Nat
  disconnects : Nat
  holders : Nat
deriving DecidableEq

/-- The empty manager. -/
def PoolState.init : PoolState := ⟨none, 0, 0, 0⟩

/-- Result of `get_protocol`: the shared client, or the `ConnectionError`
raise. -/
inductive AcquireResult where
  | ok
  | connError
deriving DecidableEq

/-- `ModbusProtocolManager.get_protocol` for one port. `connectOk` is
whether the physical `protocol.connect()` call would succeed. Existing
entry: the reference count is incremented first (line 70), then the
connectivity check runs; a failed reconnect raises with the incremented
count left in place (`ModbusProtocol.connect` failure leaves
`client = None`, so the stored entry stays disconnected). New port: a
failed connect raises before anything is stored. -/
def get_protocol (connectOk : Bool) (s : PoolState) : AcquireResult × PoolState :=
  match s.entry with
  | some (connected, n) =>
    if connected then
      (.ok, { s with entry := some (true, n + 1), holders := s.holders + 1 })
    else if connectOk then
      (.ok, { s with entry := some (true, n + 1), connects := s.connects + 1, holders := s.holders + 1 })
    else
      (.connError, { s with entry := some (false, n + 1) })
  | none =>
    if connectOk then
      (.ok, { s with entry := some (true, 1), connects := s.connects + 1, holders := s.holders + 1 })
    else
      (.connError, s)

/-- `ModbusProtocolManager.release_protocol` for one port: unknown port is
a no-op; `ref_count > 1` just decrements; the last reference disconnects
the client and removes the entry. -/
def release_protocol (s : PoolState) : PoolState :=
  match s.entry with
  | none => s
  | some (c, n) =>
    if 1 < n then
      { s with entry := some (c, n - 1), holders := s.holders - 1 }
    else
      { s with entry := none, disconnects := s.disconnects + 1, holders := s.holders - 1 }

/-- Events that drive the per-port pool state: an acquire (with the given
physical-connect outcome), a release, or the stored client dropping its
connection (e.g. an external `protocol.disconnect()`), which is the
situation the reconnect path of `get_protocol` handles. -/
inductive PoolOp where
  | acquire (connectOk : Bool)
  | release
  | dropClient

/-- Apply one pool event. -/
def applyOp (s : PoolState) : PoolOp → PoolState
  | .acquire ok => (get_protocol ok s).2
  | .release => release_protocol s
  | .dropClient =>
    { s with entry := s.entry.map (fun p => (false, p.2)) }

/-- Run a list of pool events from the empty manager. -/
def runOps (ops : List PoolOp) : PoolState :=
  ops.foldl applyOp PoolState.init

/-! ### `ModbusProtocol.write_register` (`modbus_protocol.py`) -/

/-- How the underlying `client.execute` call for the single-register write
can end: success, a `ModbusError`, a `ModbusInvalidResponseError`, or any
other exception. -/
inductive WriteOutcome where
  | ok
  | modbusError
  | invalidResponse
  | otherError
deriving DecidableEq

/-- `ModbusProtocol.write_register`: returns False when not connected;
True on success; on `ModbusError` / `ModbusInvalidResponseError` returns
True when `verify_response` is False and False otherwise; any other
exception returns False. -/
def write_register (connected : Bool) (outcome : WriteOutcome)
    (verify_response : Bool) : Bool :=
  if !connected then false
  else
    match outcome with
    | .ok => true
    | .modbusError => if verify_response then false else true
    | .invalidResponse => if verify_response then false else true
    | .otherError => false

example : create_device_gateway (some [0x0080, 0x0001, 0x0001, 0x5903]) true
    = .error .typeError := rfl
example : create_device_gateway (some [0x0080, 0x0001, 0x0001, 0x1401]) true
    = .error .typeError := rfl
example : create_device_gateway (some [0x0080, 0x0001, 0x0001, 0x2201]) true
    = .error .valueError := rfl
example : runOps [.acquire true, .dropClient, .acquire false]
    = ⟨some (false, 2), 1, 0, 1⟩ := rfl
example : write_register true .modbusError false = true := by decide

/-! ## Claim theorems -/

/-- C1: the spec says `create_device_gateway` returns a contact-splitter
gateway for device type 0x59 and a boiler gateway for 0x14/0x15/0x16, and
raises an unsupported-device `ValueError` otherwise. The code instead
raises `TypeError` on every supported device type: the router passes the
keyword argument `debug_modbus` to `ContactSensorGateway(...)` and
`BoilerGateway(...)`, but neither `__init__` declares that parameter.
Unsupported types and failed reads do raise `ValueError` as claimed. -/
theorem C1_router_constructor_type_error :
    create_device_gateway (some [0x0080, 0x0001, 0x0001, 0x5903]) true = .error .typeError ∧
    create_device_gateway (some [0x0080, 0x0001, 0x0001, 0x1401]) true = .error .typeError ∧
    create_device_gateway (some [0x0080, 0x0001, 0x0001, 0x1501]) true = .error .typeError ∧
    create_device_gateway (some [0x0080, 0x0001, 0x0001, 0x1601]) true = .error .typeError ∧
    create_device_gateway (some [0x0080, 0x0001, 0x0001, 0x2201]) true = .error .valueError ∧
    create_device_gateway none true = .error .valueError :=
  ⟨rfl, rfl, rfl, rfl, rfl, rfl⟩

/-- C2: the boiler coordinator does replace the gateway snapshot wholesale
(`self.gateway.cache = data`), but the contact coordinator only RETURNS
the freshly read data and never assigns `gateway.cache`, so a stale (or
empty) gateway snapshot survives a successful contact poll and the
gateway getters keep reading the old data. -/
theorem C2_snapshot_publication :
    (∀ prior data : Snapshot, boiler_apply_success prior data = data) ∧
    contact_update (some 8) (some [1]) [(0x0010, 0)]
      = .ok ([(0x0010, 1)], [(0x0010, 0)]) ∧
    ([(0x0010, 0)] : Snapshot) ≠ [(0x0010, 1)] := by
  refine ⟨fun _ _ => rfl, rfl, by decide⟩

/-- C10: with `verify_response=False`, `write_register` reports True even
when the slave answered with a Modbus error or an invalid/unparseable
response, while the default `verify_response=True` turns the same
outcomes into False; a successful exchange reports True either way. -/
theorem C10_write_register_verify_opt_out :
    write_register true .modbusError false = true ∧
    write_register true .invalidResponse false = true ∧
    write_register true .modbusError true = false ∧
    write_register true .invalidResponse true = false ∧
    write_register true .ok true = true ∧
    write_register true .ok false = true := by
  decide

/-- The pool invariant: every stored entry has reference count ≥ 1. -/
def poolInv (s : PoolState) : Prop :=
  ∀ c n, s.entry = some (c, n) → 1 ≤ n

lemma poolInv_init : poolInv PoolState.init := by
  intro c n h
  simp [PoolState.init] at h

lemma poolInv_applyOp (s : PoolState) (op : PoolOp) (h : poolInv s) :
    poolInv (applyOp s op) := by
  intro c n hcn
  cases op with
  | acquire ok =>
    simp only [applyOp, get_protocol] at hcn
    rcases hel : s.entry with _ | ⟨conn, n0⟩ <;> rw [hel] at hcn <;> dsimp at hcn
    · split at hcn
      · simp only [Option.some.injEq, Prod.mk.injEq] at hcn; omega
      · rw [hel] at hcn; cases hcn
    · split at hcn
      · simp only [Option.some.injEq, Prod.mk.injEq] at hcn; omega
      · split at hcn <;>
          simp only [Option.some.injEq, Prod.mk.injEq] at hcn <;> omega
  | release =>
    simp only [applyOp, release_protocol] at hcn
    rcases hel : s.entry with _ | ⟨conn, n0⟩ <;> rw [hel] at hcn <;> dsimp at hcn
    · rw [hel] at hcn; cases hcn
    · split at hcn
      · simp only [Option.some.injEq, Prod.mk.injEq] at hcn; omega
      · cases hcn
  | dropClient =>
    simp only [applyOp] at hcn
    rcases hel : s.entry with _ | ⟨conn, n0⟩ <;> rw [hel] at hcn <;> dsimp at hcn
    · cases hcn
    · simp only [Option.some.injEq, Prod.mk.injEq] at hcn
      obtain ⟨-, hn⟩ := hcn
      have := h conn n0 hel
      omega

lemma poolInv_run (ops : List PoolOp) : poolInv (runOps ops) := by
  have main : ∀ (l : List PoolOp) (s : PoolState), poolInv s →
      poolInv (l.foldl applyOp s) := by
    intro l
    induction l with
    | nil => intro s hs; exact hs
    | cons op rest ih => intro s hs; exact ih _ (poolInv_applyOp s op hs)
  exact main ops PoolState.init poolInv_init

/-- C8: the reference-counting life cycle of the protocol pool. The first
successful acquire stores (connected, 1) and performs exactly one
connect; an acquire on a connected entry only increments the count (no
reconnect); a release decrements, and the release that takes the count
from 1 disconnects and removes the entry; releasing an unknown port is a
no-op; along any event sequence every stored count stays ≥ 1. -/
theorem C8_pool_reference_counting (s : PoolState) (b c : Bool) (n : Nat)
    (ops : List PoolOp) :
    (s.entry = none →
      get_protocol true s
        = (.ok, { s with entry := some (true, 1), connects := s.connects + 1, holders := s.holders + 1 })) ∧
    (s.entry = some (true, n) →
      get_protocol b s
        = (.ok, { s with entry := some (true, n + 1), holders := s.holders + 1 })) ∧
    (s.entry = some (c, n) → 2 ≤ n →
      release_protocol s = { s with entry := some (c, n - 1), holders := s.holders - 1 }) ∧
    (s.entry = some (c, 1) →
      release_protocol s = { s with entry := none, disconnects := s.disconnects + 1, holders := s.holders - 1 }) ∧
    (s.entry = none → release_protocol s = s) ∧
    (∀ c2 n2, (runOps ops).entry = some (c2, n2) → 1 ≤ n2) := by
  refine ⟨?_, ?_, ?_, ?_, ?_, poolInv_run ops⟩
  · intro hel; simp [get_protocol, hel]
  · intro hel; simp [get_protocol, hel]
  · intro hel h2; simp [release_protocol, hel, show 1 < n by omega]
  · intro hel; simp [release_protocol, hel]
  · intro hel; simp [release_protocol, hel]

/-- Closed instance of C8: a connect, two more acquires, three releases,
then a stray release. -/
theorem C8_pool_reference_counting_witness :
    get_protocol true PoolState.init = (.ok, ⟨some (true, 1), 1, 0, 1⟩) ∧
    release_protocol ⟨some (true, 1), 1, 0, 1⟩ = ⟨none, 1, 1, 0⟩ ∧
    release_protocol ⟨none, 1, 1, 0⟩ = ⟨none, 1, 1, 0⟩ := by
  refine ⟨?_, ?_, ?_⟩
  · exact (C8_pool_reference_counting PoolState.init true true 1 []).1 rfl
  · exact (C8_pool_reference_counting ⟨some (true, 1), 1, 0, 1⟩ true true 1 []).2.2.2.1 rfl
  · exact (C8_pool_reference_counting ⟨none, 1, 1, 0⟩ true true 1 []).2.2.2.2.1 rfl

/-- C9 counterexample: after one successful acquire (count 1, one live
holder) and a client drop, a failed re-acquire (reconnect fails) raises
`ConnectionError` but leaves the reference count incremented to 2 while
only 1 caller holds a successfully acquired client — the claimed
invariant "stored count never exceeds successful holders" is violated. -/
theorem C9_counterexample :
    (get_protocol false (runOps [.acquire true, .dropClient])).1 = .connError ∧
    runOps [.acquire true, .dropClient, .acquire false] = ⟨some (false, 2), 1, 0, 1⟩ ∧
    ¬((2 : Nat) ≤ 1) :=
  ⟨rfl, rfl, by decide⟩

/-- C9 amended: on an entry whose stored client is disconnected, acquire
attempts the reconnect before handing the client out and raises
`ConnectionError` when the reconnect fails; but the reference count is
incremented before the connectivity check and is not rolled back on
failure, so a failed acquire still leaves the count one higher. -/
theorem C9_reconnect_on_acquire (s : PoolState) (n : Nat)
    (h : s.entry = some (false, n)) :
    get_protocol true s
      = (.ok, { s with entry := some (true, n + 1), connects := s.connects + 1, holders := s.holders + 1 }) ∧
    get_protocol false s = (.connError, { s with entry := some (false, n + 1) }) := by
  constructor <;> simp [get_protocol, h]

/-- Closed instance of the C9 amended statement at the dropped-client
state. -/
theorem C9_reconnect_on_acquire_witness :
    get_protocol false ⟨some (false, 1), 1, 0, 1⟩
      = (.connError, ⟨some (false, 2), 1, 0, 1⟩) :=
  (C9_reconnect_on_acquire ⟨some (false, 1), 1, 0, 1⟩ 1 rfl).2

/-- C3 counterexample: `get_dhw_setpoint` reads register 0x0037, inside
the claimed status-gated range 0x0010-0x003F, yet with the status
register 0x0067 present and decoding to NotSupported (-1) it still
returns the decoded high byte (40 °C) instead of unavailable. -/
theorem C3_counterexample :
    get_register_status [(0x0037, 0x2800), (0x0067, 0xFFFF)] REGISTER_DHW_SETPOINT
      = some REG_STATUS_NOT_SUPPORTED ∧
    get_dhw_setpoint [(0x0037, 0x2800), (0x0067, 0xFFFF)] = some 40 ∧
    get_dhw_setpoint [(0x0037, 0x2800), (0x0067, 0xFFFF)] ≠ none := by
  refine ⟨by decide, ?_, ?_⟩ <;>
    simp +decide [get_dhw_setpoint, Snapshot.get, REGISTER_DHW_SETPOINT, List.find?]

/-- C3 amended: the status gate (return unavailable when the status at
address + 0x30 decodes to -1, -2 or 1; decode the raw word as if valid
when the status register is absent) holds for the getters that implement
it — CH temperature, DHW temperature, pressure, flow rate, modulation
level, outdoor temperature, active CH setpoint — and the CH-setpoint
getter returns its cache instead of unavailable; but `get_dhw_setpoint`
never consults the status register: its result depends only on the raw
word at 0x0037. -/
theorem C3_status_gating (s t : Snapshot) :
    (∀ v : Int, get_register_status s REGISTER_CH_TEMP = some v →
      v = REG_STATUS_NOT_SUPPORTED ∨ v = REG_STATUS_RW_ERROR ∨ v = REG_STATUS_NOT_INIT →
      get_ch_temperature s = none) ∧
    (s.get REGISTER_DHW_SETPOINT = t.get REGISTER_DHW_SETPOINT →
      get_dhw_setpoint s = get_dhw_setpoint t) ∧
    (get_register_status s REGISTER_CH_TEMP = none →
      get_ch_temperature s
        = match s.get REGISTER_CH_TEMP with
          | none => none
          | some raw => if raw == 0x7FFF then none else some ((toI16 raw : ℚ) / 10)) ∧
    (∀ v : Int, get_register_status s REGISTER_DHW_TEMP = some v →
      v = REG_STATUS_NOT_SUPPORTED ∨ v = REG_STATUS_RW_ERROR ∨ v = REG_STATUS_NOT_INIT →
      get_dhw_temperature s = none) ∧
    (get_register_status s REGISTER_DHW_TEMP = none →
      get_dhw_temperature s
        = match s.get REGISTER_DHW_TEMP with
          | none => none
          | some raw => if raw == 0x7FFF then none else some ((raw : ℚ) / 10)) ∧
    (∀ v : Int, get_register_status s REGISTER_PRESSURE = some v →
      v = REG_STATUS_NOT_SUPPORTED ∨ v = REG_STATUS_RW_ERROR ∨ v = REG_STATUS_NOT_INIT →
      get_pressure s = none) ∧
    (get_register_status s REGISTER_PRESSURE = none →
      get_pressure s
        = match s.get REGISTER_PRESSURE with
          | none => none
          | some raw =>
            if raw &&& 0xFF == 0xFF then none else some (((raw &&& 0xFF : Nat) : ℚ) / 10)) ∧
    (∀ v : Int, get_register_status s REGISTER_FLOW = some v →
      v = REG_STATUS_NOT_SUPPORTED ∨ v = REG_STATUS_RW_ERROR ∨ v = REG_STATUS_NOT_INIT →
      get_flow_rate s = none) ∧
    (∀ v : Int, get_register_status s REGISTER_MODULATION = some v →
      v = REG_STATUS_NOT_SUPPORTED ∨ v = REG_STATUS_RW_ERROR ∨ v = REG_STATUS_NOT_INIT →
      get_modulation_level s = none) ∧
    (∀ v : Int, get_register_status s REGISTER_OUTDOOR_TEMP = some v →
      v = REG_STATUS_NOT_SUPPORTED ∨ v = REG_STATUS_RW_ERROR ∨ v = REG_STATUS_NOT_INIT →
      get_outdoor_temperature s = none) ∧
    (get_register_status s REGISTER_OUTDOOR_TEMP = none →
      get_outdoor_temperature s
        = match s.get REGISTER_OUTDOOR_TEMP with
          | none => none
          | some raw =>
            if (raw >>> 8) &&& 0xFF == 0x7F then none
            else some (toI8 ((raw >>> 8) &&& 0xFF))) ∧
    (∀ v : Int, get_register_status s REGISTER_CH_SETPOINT_ACTIVE = some v →
      v = REG_STATUS_NOT_SUPPORTED ∨ v = REG_STATUS_RW_ERROR ∨ v = REG_STATUS_NOT_INIT →
      get_ch_setpoint_active s = none) ∧
    (∀ (cache : Option ℚ) (v : Int),
      get_register_status s REGISTER_CH_SETPOINT = some v →
      v = REG_STATUS_NOT_SUPPORTED ∨ v = REG_STATUS_RW_ERROR ∨ v = REG_STATUS_NOT_INIT →
      (get_ch_setpoint s cache).1 = cache) := by
  have hblock : ∀ (addr : Nat) (v : Int), get_register_status s addr = some v →
      v = REG_STATUS_NOT_SUPPORTED ∨ v = REG_STATUS_RW_ERROR ∨ v = REG_STATUS_NOT_INIT →
      status_blocks (get_register_status s addr) = true := by
    intro addr v hst hv
    rw [hst]
    rcases hv with rfl | rfl | rfl <;> rfl
  refine ⟨?_, ?_, ?_, ?_, ?_, ?_, ?_, ?_, ?_, ?_, ?_, ?_, ?_⟩
  · intro v hst hv
    simp [get_ch_temperature, hblock _ v hst hv]
  · intro hst
    unfold get_dhw_setpoint
    rw [hst]
  · intro hst
    simp [get_ch_temperature, status_blocks, hst]
  · intro v hst hv
    simp [get_dhw_temperature, hblock _ v hst hv]
  · intro hst
    simp [get_dhw_temperature, status_blocks, hst]
  · intro v hst hv
    simp [get_pressure, hblock _ v hst hv]
  · intro hst
    simp [get_pressure, status_blocks, hst]
  · intro v hst hv
    simp [get_flow_rate, hblock _ v hst hv]
  · intro v hst hv
    simp [get_modulation_level, hblock _ v hst hv]
  · intro v hst hv
    simp [get_outdoor_temperature, hblock _ v hst hv]
  · intro hst
    simp [get_outdoor_temperature, status_blocks, hst]
  · intro v hst hv
    simp [get_ch_setpoint_active, hblock _ v hst hv]
  · intro cache v hst hv
    simp [get_ch_setpoint, hblock _ v hst hv]

/-- Closed instance of the C3 amended statement: a blocked CH-temperature
read and the status-independence of the DHW-setpoint getter. -/
theorem C3_status_gating_witness :
    get_ch_temperature [(0x0018, 291), (0x0048, 0xFFFF)] = none ∧
    get_dhw_setpoint [(0x0037, 0x2800), (0x0067, 0xFFFF)]
      = get_dhw_setpoint [(0x0037, 0x2800)] :=
  ⟨(C3_status_gating [(0x0018, 291), (0x0048, 0xFFFF)] []).1 (-1) (by decide)
      (Or.inl rfl),
   (C3_status_gating [(0x0037, 0x2800), (0x0067, 0xFFFF)]
      [(0x0037, 0x2800)]).2.1 (by decide)⟩

lemma mem_numberFrom {x : Nat × Nat} :
    ∀ {start : Nat} {l : List Nat}, x ∈ numberFrom start l →
      start ≤ x.1 ∧ x.1 < start + l.length := by
  intro start l
  induction l generalizing start with
  | nil => intro hx; cases hx
  | cons y ys ih =>
    intro hx
    rcases List.mem_cons.mp hx with hx | hx
    · subst hx; simp
    · have := ih hx
      simp only [List.length_cons]
      omega

/-- Addresses outside the polled block and different from the
circuit-enable register are absent from every merged boiler snapshot. -/
lemma mergeData_get_none (regs : List Nat) (c1 : Option (List Nat)) (a : Nat)
    (h1 : a < 0x0010 ∨ 0x0010 + regs.length ≤ a) (h2 : a ≠ 0x0039) :
    (mergeData regs c1).get a = none := by
  have hfind : (mergeData regs c1).find? (fun p => p.1 == a) = none := by
    rw [List.find?_eq_none]
    intro x hx
    simp only [mergeData, List.mem_append] at hx
    rcases hx with hx | hx
    · have hb := mem_numberFrom hx
      simp
      omega
    · rcases c1 with _ | cl
      · cases hx
      · rcases cl with _ | ⟨c0, rest⟩
        · cases hx
        · simp only [List.mem_singleton] at hx
          subst hx
          simp
          omega
  simp [Snapshot.get, hfind]

/-- C4: the sticky CH-setpoint cache. The getter returns the cached value
whenever the status of the live register decodes to -1, -2 or 1 or the raw word is
absent or the 0x7FFF sentinel; a successful decode returns the decoded
value and stores it in the cache; the setter stores `value_raw / 10`
independently of the write outcome; and no boiler poll ever puts register
0x0031 into the snapshot (the polled block is 0x0010-0x0026 plus 0x0039),
so after `set_ch_setpoint 500` the getter keeps answering 50 both before
the next poll and when the register reports NotSupported. -/
theorem C4_ch_setpoint_sticky_cache (s : Snapshot) (cache : Option ℚ) (v : ℚ)
    (raw : Nat) (w : Bool) (regs : List Nat) (c1 : Option (List Nat)) :
    (∀ st : Int, get_register_status s REGISTER_CH_SETPOINT = some st →
      st = REG_STATUS_NOT_SUPPORTED ∨ st = REG_STATUS_RW_ERROR ∨ st = REG_STATUS_NOT_INIT →
      get_ch_setpoint s (some v) = (some v, some v)) ∧
    (status_blocks (get_register_status s REGISTER_CH_SETPOINT) = false →
      s.get REGISTER_CH_SETPOINT = none →
      get_ch_setpoint s (some v) = (some v, some v)) ∧
    (status_blocks (get_register_status s REGISTER_CH_SETPOINT) = false →
      s.get REGISTER_CH_SETPOINT = some 0x7FFF →
      get_ch_setpoint s (some v) = (some v, some v)) ∧
    (status_blocks (get_register_status s REGISTER_CH_SETPOINT) = false →
      s.get REGISTER_CH_SETPOINT = some raw → raw ≠ 0x7FFF →
      get_ch_setpoint s cache
        = (some ((toI16 raw : ℚ) / 10), some ((toI16 raw : ℚ) / 10))) ∧
    ((set_ch_setpoint 500 w).1 = some 50) ∧
    (regs.length = 23 → (mergeData regs c1).get REGISTER_CH_SETPOINT = none) ∧
    ((get_ch_setpoint [] (some 50)).1 = some 50) ∧
    ((get_ch_setpoint [(0x0061, 0xFFFF)] (some 50)).1 = some 50) := by
  refine ⟨?_, ?_, ?_, ?_, ?_, ?_, rfl, rfl⟩
  · intro st hst hv
    have hb : status_blocks (get_register_status s REGISTER_CH_SETPOINT) = true := by
      rw [hst]; rcases hv with rfl | rfl | rfl <;> rfl
    simp [get_ch_setpoint, hb]
  · intro hb hraw
    simp [get_ch_setpoint, hb, hraw]
  · intro hb hraw
    simp [get_ch_setpoint, hb, hraw]
  · intro hb hraw hsent
    simp [get_ch_setpoint, hb, hraw, hsent]
  · show some ((500 : ℚ) / 10) = some 50
    norm_num
  · intro hlen
    exact mergeData_get_none regs c1 REGISTER_CH_SETPOINT
      (by rw [hlen]; right; decide) (by decide)

/-- Closed instance of C4: decoding raw 500 returns 50 and caches it; the
getter then keeps answering 50 on an empty snapshot and on a
NotSupported snapshot; a 23-register poll leaves 0x0031 absent. -/
theorem C4_ch_setpoint_sticky_cache_witness :
    get_ch_setpoint [(0x0031, 500)] none
      = (some ((toI16 500 : ℚ) / 10), some ((toI16 500 : ℚ) / 10)) ∧
    (set_ch_setpoint 500 true).1 = some 50 ∧
    (get_ch_setpoint [] (some 50)).1 = some 50 ∧
    (get_ch_setpoint [(0x0061, 0xFFFF)] (some 50)).1 = some 50 ∧
    (mergeData (List.replicate 23 0) none).get REGISTER_CH_SETPOINT = none := by
  have h := C4_ch_setpoint_sticky_cache [(0x0031, 500)] none 50 500 true
    (List.replicate 23 0) none
  exact ⟨h.2.2.2.1 (by decide) (by decide) (by decide),
    h.2.2.2.2.1, h.2.2.2.2.2.2.1, h.2.2.2.2.2.2.2,
    h.2.2.2.2.2.1 (by decide)⟩

/-- C6 counterexample: the DHW-temperature getter applies no sign
conversion: raw 0x8000 decodes to +3276.8 (= 16384/5), not to the claimed
twos-complement value (0x8000 - 0x10000) / 10 = -3276.8. -/
theorem C6_counterexample :
    get_dhw_temperature [(0x0019, 0x8000)] = some (16384 / 5) ∧
    get_dhw_temperature [(0x0019, 0x8000)] ≠ some (-(16384 / 5)) := by
  constructor <;>
    simp +decide [get_dhw_temperature, Snapshot.get, get_register_status,
      status_blocks, REGISTER_DHW_TEMP, List.find?] <;>
    norm_num

/-- C6 amended: for a present, validly statused, non-sentinel DHW register
the getter returns `raw / 10` with the raw word read as unsigned — raw
words ≥ 0x8000 therefore decode to large positive values, not negatives. -/
theorem C6_dhw_unsigned (s : Snapshot) (raw : Nat)
    (hst : get_register_status s REGISTER_DHW_TEMP = none ∨
      get_register_status s REGISTER_DHW_TEMP = some REG_STATUS_VALID)
    (hraw : s.get REGISTER_DHW_TEMP = some raw) (hsent : raw ≠ 0x7FFF) :
    get_dhw_temperature s = some ((raw : ℚ) / 10) := by
  rcases hst with hst | hst <;>
    simp [get_dhw_temperature, status_blocks, hst, hraw, hsent, REG_STATUS_VALID]

/-- Closed instance of the C6 amended statement at raw 450 (45.0 °C). -/
theorem C6_dhw_unsigned_witness :
    get_dhw_temperature [(0x0019, 450)] = some ((450 : ℚ) / 10) :=
  C6_dhw_unsigned [(0x0019, 450)] 450 (Or.inl (by decide)) (by decide) (by decide)

/-- C7 counterexample: the outdoor-temperature sentinel in the code is a
high byte of 0x7F, not 0xFF — raw 0xFF00 (high byte 0xFF) decodes to -1
rather than unavailable, while raw 0x7F00 (high byte 0x7F) is
unavailable. -/
theorem C7_counterexample :
    get_outdoor_temperature [(0x0020, 0xFF00)] = some (-1) ∧
    get_outdoor_temperature [(0x0020, 0x7F00)] = none := by
  decide

/-- C7 amended: for a present, validly statused outdoor-temperature
register the getter is unavailable exactly when the high byte is 0x7F,
and otherwise returns the high byte as a signed 8-bit integer; raw
0x8500 decodes to -123. -/
theorem C7_outdoor_sentinel (s : Snapshot) (raw : Nat)
    (hst : get_register_status s REGISTER_OUTDOOR_TEMP = none ∨
      get_register_status s REGISTER_OUTDOOR_TEMP = some REG_STATUS_VALID)
    (hraw : s.get REGISTER_OUTDOOR_TEMP = some raw) :
    (get_outdoor_temperature s = none ↔ (raw >>> 8) &&& 0xFF = 0x7F) ∧
    ((raw >>> 8) &&& 0xFF ≠ 0x7F →
      get_outdoor_temperature s = some (toI8 ((raw >>> 8) &&& 0xFF))) ∧
    get_outdoor_temperature [(0x0020, 0x8500)] = some (-123) := by
  have hnb : status_blocks (get_register_status s REGISTER_OUTDOOR_TEMP) = false := by
    rcases hst with hst | hst <;> rw [hst] <;> rfl
  refine ⟨?_, ?_, by decide⟩
  · by_cases hm : (raw >>> 8) &&& 0xFF = 0x7F <;>
      simp [get_outdoor_temperature, hnb, hraw, hm]
  · intro hm
    simp [get_outdoor_temperature, hnb, hraw, hm]

/-- Closed instance of the C7 amended statement at raw 0x8500. -/
theorem C7_outdoor_sentinel_witness :
    get_outdoor_temperature [(0x0020, 0x8500)] = some (toI8 ((0x8500 >>> 8) &&& 0xFF)) :=
  (C7_outdoor_sentinel [(0x0020, 0x8500)] 0x8500 (Or.inl (by decide))
    (by decide)).2.1 (by decide)

lemma pollAux_eq_noData (outcomes : Nat → ReadOutcome) (r a : Nat) (d : List ℚ)
    (h : outcomes a = .noData) :
    pollAux outcomes r a d = .failedNoData (a + 1) d := by
  rw [pollAux, h]

/-- Splitting off the first backoff delay of a retry run. -/
lemma delays_shift (a k : Nat) (d : List ℚ) :
    (d ++ [(1 / 2 : ℚ) * ((a : ℚ) + 1)])
        ++ (List.range k).map (fun i => (1 / 2 : ℚ) * (((a + 1 + i : Nat) : ℚ) + 1))
      = d ++ (List.range (k + 1)).map
          (fun i => (1 / 2 : ℚ) * (((a + i : Nat) : ℚ) + 1)) := by
  have hfun : (fun i => (1 / 2 : ℚ) * (((a + 1 + i : Nat) : ℚ) + 1))
      = (fun i => (1 / 2 : ℚ) * (((a + i : Nat) : ℚ) + 1)) ∘ Nat.succ := by
    funext i
    simp only [Function.comp_apply]
    rw [show a + 1 + i = a + (i + 1) by omega]
  rw [List.append_assoc, List.range_succ_eq_map, List.map_cons, List.map_map,
    List.singleton_append, ← hfun]
  norm_num

lemma pollAux_eq_success (outcomes : Nat → ReadOutcome) (r : Nat)
    (regs : List Nat) (c : Option (List Nat)) :
    ∀ (k a : Nat) (d : List ℚ),
      (∀ i, i < k → outcomes (a + i) = .transient) →
      outcomes (a + k) = .ok regs c → a + k ≤ r →
      pollAux outcomes r a d
        = .success (mergeData regs c) (a + k + 1)
            (d ++ (List.range k).map
              (fun i => (1 / 2 : ℚ) * (((a + i : Nat) : ℚ) + 1))) := by
  intro k
  induction k with
  | zero =>
    intro a d _ h2 _
    rw [show a + 0 = a from rfl] at h2
    rw [pollAux, h2]
    simp
  | succ k ih =>
    intro a d h1 h2 hle
    have ha : outcomes a = .transient := by simpa using h1 0 (Nat.succ_pos k)
    have haltr : a < r := by omega
    have h1a : ∀ i, i < k → outcomes (a + 1 + i) = .transient := by
      intro i hi
      have := h1 (i + 1) (by omega)
      rwa [show a + (i + 1) = a + 1 + i by omega] at this
    have h2a : outcomes (a + 1 + k) = .ok regs c := by
      rwa [show a + 1 + k = a + (k + 1) by omega]
    rw [pollAux, ha, dif_pos haltr,
      ih (a + 1) (d ++ [(1 / 2 : ℚ) * ((a : ℚ) + 1)]) h1a h2a (by omega),
      show a + 1 + k + 1 = a + (k + 1) + 1 by omega, delays_shift]

lemma pollAux_eq_exhausted (outcomes : Nat → ReadOutcome) (r : Nat) :
    ∀ (k a : Nat) (d : List ℚ),
      (∀ i, i ≤ k → outcomes (a + i) = .transient) → a + k = r →
      pollAux outcomes r a d
        = .failedRetriesExhausted (r + 1)
            (d ++ (List.range k).map
              (fun i => (1 / 2 : ℚ) * (((a + i : Nat) : ℚ) + 1))) := by
  intro k
  induction k with
  | zero =>
    intro a d h1 h2
    have ha : outcomes a = .transient := by simpa using h1 0 (Nat.le_refl 0)
    have har : a = r := by omega
    subst har
    rw [pollAux, ha, dif_neg (by omega)]
    simp
  | succ k ih =>
    intro a d h1 h2
    have ha : outcomes a = .transient := by simpa using h1 0 (Nat.zero_le _)
    have haltr : a < r := by omega
    have h1a : ∀ i, i ≤ k → outcomes (a + 1 + i) = .transient := by
      intro i hi
      have := h1 (i + 1) (by omega)
      rwa [show a + (i + 1) = a + 1 + i by omega] at this
    rw [pollAux, ha, dif_pos haltr,
      ih (a + 1) (d ++ [(1 / 2 : ℚ) * ((a : ℚ) + 1)]) h1a (by omega), delays_shift]

/-- C5: the boiler coordinator retry policy. A primary read that reports
no data fails the cycle on attempt 1 with no retry and no backoff sleep;
if the first k attempts raise transient errors (k ≤ retry_count) and
attempt k+1 succeeds, the poll reports Success after exactly k+1
attempts, having slept the linear backoff 0.5 * attempt_number before
each retry; if every attempt raises a transient error, the poll reports
Failed after exactly retry_count + 1 attempts. -/
theorem C5_retry_policy (outcomes : Nat → ReadOutcome) (r k : Nat)
    (regs : List Nat) (c : Option (List Nat)) :
    (outcomes 0 = .noData → boilerPollRun outcomes r = .failedNoData 1 []) ∧
    ((∀ i, i < k → outcomes i = .transient) → outcomes k = .ok regs c → k ≤ r →
      boilerPollRun outcomes r
        = .success (mergeData regs c) (k + 1)
            ((List.range k).map (fun i : Nat => (1 / 2 : ℚ) * ((i : ℚ) + 1)))) ∧
    ((∀ i, i ≤ r → outcomes i = .transient) →
      boilerPollRun outcomes r
        = .failedRetriesExhausted (r + 1)
            ((List.range r).map (fun i : Nat => (1 / 2 : ℚ) * ((i : ℚ) + 1)))) := by
  refine ⟨?_, ?_, ?_⟩
  · intro h
    exact pollAux_eq_noData outcomes r 0 [] h
  · intro h1 h2 h3
    have hmain := pollAux_eq_success outcomes r regs c k 0 []
      (by intro i hi; simpa using h1 i hi) (by simpa using h2) (by omega)
    simp only [Nat.zero_add, List.nil_append] at hmain
    unfold boilerPollRun
    exact hmain
  · intro h1
    have hmain := pollAux_eq_exhausted outcomes r r 0 []
      (by intro i hi; simpa using h1 i hi) (by omega)
    simp only [Nat.zero_add, List.nil_append] at hmain
    unfold boilerPollRun
    exact hmain

/-- A transport that raises transient errors on the first two attempts and
then answers register 7. -/
def failTwice : Nat → ReadOutcome :=
  fun n => if n < 2 then .transient else .ok [7] none

/-- A transport that raises a transient error on every attempt. -/
def alwaysFail : Nat → ReadOutcome := fun _ => .transient

/-- Closed instance of C5 with retry_count = 2: fail-twice-then-succeed
reports Success after exactly 3 attempts, always-fail reports Failed
after exactly 3 attempts, both with backoff sleeps 0.5 and 1.0. -/
theorem C5_retry_policy_witness :
    boilerPollRun failTwice 2
      = .success (mergeData [7] none) 3
          ((List.range 2).map (fun i : Nat => (1 / 2 : ℚ) * ((i : ℚ) + 1))) ∧
    boilerPollRun alwaysFail 2
      = .failedRetriesExhausted 3
          ((List.range 2).map (fun i : Nat => (1 / 2 : ℚ) * ((i : ℚ) + 1))) :=
  ⟨(C5_retry_policy failTwice 2 2 [7] none).2.1
      (fun i hi => by simp [failTwice, hi]) (by rfl) (by omega),
   (C5_retry_policy alwaysFail 2 2 [] none).2.2 (fun i _ => rfl)⟩
